import Mathlib

/-!
Shallow embedding of the NHI Landsat 8 and 9 pipeline
(src/Etna_example/nhi_oli_8_9_sp_v01.py) together with theorems that settle
the specification claims about it.

Modelling conventions:
- A calibrated scene is the list of its valid (unmasked) pixels inside the
  clipped region of interest; each pixel carries the four selected bands
  B1, B5, B6, B7 as exact rationals (radiance values).
- A derived single-band raster over a scene is a list of the same length
  whose entries are Option Rat: none models a masked (absent) pixel, some v
  a pixel holding value v.  Earth Engine band operations are embedded
  pointwise; binary operations propagate masks, and division by a zero
  denominator in normalizedDifference yields a masked pixel.
- Server-side reductions over a band become list reductions over the
  unmasked entries: count is their number, sum is none when no pixel is
  unmasked (the service returns null, which numpy turns into nan) and the
  rational sum otherwise, max is the maximum unmasked value.
-/

namespace NHI

/-- Pixel of a calibrated Landsat scene: the four bands selected by the
script (B1 coastal/blue, B5 NIR, B6 SWIR1, B7 SWIR2), in radiance units. -/
structure Pixel where
  B1 : Rat
  B5 : Rat
  B6 : Rat
  B7 : Rat
deriving DecidableEq, Repr

/-- A derived single-band raster over a scene: one optional value per pixel,
none meaning the pixel is masked out. -/
def Band : Type := List (Option Rat)

/-- Pointwise normalized difference (a - b) / (a + b); masked when the
denominator is zero (Earth Engine masks division by zero). -/
def ndPix (a b : Rat) : Option Rat :=
  if a + b = 0 then none else some ((a - b) / (a + b))

/-- Band holding a raw pixel attribute of the scene (img.select of an
original band): every pixel of the scene is unmasked. -/
def img_band (img : List Pixel) (v : Pixel → Rat) : Band :=
  img.map (fun p => some (v p))

/-- Band of img.normalizedDifference of two raw bands. -/
def img_nd (img : List Pixel) (a b : Pixel → Rat) : Band :=
  img.map (fun p => ndPix (a p) (b p))

/-- Pointwise band.gt(c): 1 where the value exceeds c, 0 otherwise, masked
pixels stay masked. -/
def band_gt (x : Band) (c : Rat) : Band :=
  x.map (Option.map (fun v => if c < v then (1 : Rat) else 0))

/-- Pointwise band.gte(c). -/
def band_gte (x : Band) (c : Rat) : Band :=
  x.map (Option.map (fun v => if c ≤ v then (1 : Rat) else 0))

/-- Pointwise band.lt(c). -/
def band_lt (x : Band) (c : Rat) : Band :=
  x.map (Option.map (fun v => if v < c then (1 : Rat) else 0))

/-- Pointwise band.neq(c). -/
def band_neq (x : Band) (c : Rat) : Band :=
  x.map (Option.map (fun v => if v ≠ c then (1 : Rat) else 0))

/-- Pointwise logical x.And(y): 1 where both operands are unmasked and
nonzero, 0 where both are unmasked and at least one is zero, masked where
either operand is masked. -/
def band_and (x y : Band) : Band :=
  List.zipWith
    (fun a b =>
      match a, b with
      | some v, some w => some (if v ≠ 0 ∧ w ≠ 0 then (1 : Rat) else 0)
      | _, _ => none)
    x y

/-- Pointwise x.updateMask(m): keep a pixel of x only where m is unmasked
and nonzero. -/
def updateMask (x m : Band) : Band :=
  List.zipWith
    (fun a b =>
      match a, b with
      | some v, some w => if w ≠ 0 then some v else none
      | _, _ => none)
    x m

/-- Counting reduction (ee.Reducer.count over the scene footprint): number
of unmasked pixels of the band. -/
def countReduce (x : Band) : Nat :=
  (x.filterMap id).length

/-- Summing reduction (ee.Reducer.sum): none (null) when no pixel is
unmasked, otherwise the sum of the unmasked values. -/
def sumReduce (x : Band) : Option Rat :=
  match x.filterMap id with
  | [] => none
  | l => some l.sum

/-- Maximum reduction (ee.Reducer.max): the largest unmasked value, none
when every pixel is masked. -/
def maxReduce (x : Band) : Option Rat :=
  (x.filterMap id).max?

/-- Addition of two per-scene sums after eelist2float: a null (none) sum
becomes nan in numpy, and nan propagates through the addition. -/
def optAdd : Option Rat → Option Rat → Option Rat
  | some a, some b => some (a + b)
  | _, _ => none

/-! ## NHI classification stage (source functions L_nhi_swir_hp,
L_nhi_swnir_hp, L_ext_pixel: the derived band each one adds to a scene) -/

/-- Band nhi_swir added by L_nhi_swir_hp:
img.normalizedDifference(B7, B6) masked to where it is strictly positive
(nhi.updateMask(nhi.gt(0))). -/
def L_nhi_swir_band (img : List Pixel) : Band :=
  let nhi := img_nd img Pixel.B7 Pixel.B6
  updateMask nhi (band_gt nhi 0)

/-- Band nhi_swnir added by L_nhi_swnir_hp:
img.normalizedDifference(B6, B5) masked to where it is strictly positive. -/
def L_nhi_swnir_band (img : List Pixel) : Band :=
  let nhi := img_nd img Pixel.B6 Pixel.B5
  updateMask nhi (band_gt nhi 0)

/-- Band L_ext_pix added by L_ext_pixel:
(normalizedDifference(B7, B6)).And(B6.gte(71.3)).And(B1.lt(70)), masked to
where the compound value is strictly positive. -/
def L_ext_band (img : List Pixel) : Band :=
  let nd := img_nd img Pixel.B7 Pixel.B6
  let c1 := band_gte (img_band img Pixel.B6) (713 / 10)
  let c2 := band_lt (img_band img Pixel.B1) 70
  let ext := band_and (band_and nd c1) c2
  updateMask ext (band_gt ext 0)

/-! ## Spec-side per-pixel characterizations of the classifiers -/

/-- Spec reading of the SWIR classifier output at one pixel: the normalized
difference retained only where strictly positive. -/
def swirSpecPx (p : Pixel) : Option Rat :=
  match ndPix p.B7 p.B6 with
  | some v => if 0 < v then some v else none
  | none => none

/-- Spec reading of the SWNIR classifier output at one pixel. -/
def swnirSpecPx (p : Pixel) : Option Rat :=
  match ndPix p.B6 p.B5 with
  | some v => if 0 < v then some v else none
  | none => none

/-- Spec reading of the extreme compound predicate at one pixel: the SWIR
normalized difference exists and is nonzero (any nonzero value, negative
included, counts as true), B6 is at least 71.3 and B1 is below 70. -/
def extClassified (p : Pixel) : Bool :=
  (match ndPix p.B7 p.B6 with
   | some v => decide (v ≠ 0)
   | none => false)
  && decide ((713 : Rat) / 10 ≤ p.B6) && decide (p.B1 < 70)

/-! ## Pointwise characterization lemmas for the three classifier bands -/

theorem L_nhi_swir_band_eq (img : List Pixel) :
    L_nhi_swir_band img = img.map swirSpecPx := by
  induction img with
  | nil => rfl
  | cons p rest ih =>
    simp only [L_nhi_swir_band, img_nd, band_gt, updateMask, List.map_cons,
      List.zipWith_cons_cons, List.map_cons] at *
    refine congrArg₂ List.cons ?_ ih
    unfold swirSpecPx
    rcases h : ndPix p.B7 p.B6 with _ | v
    · rfl
    · by_cases hv : (0 : Rat) < v
      · simp [Option.map, hv]
      · simp [Option.map, hv]

theorem L_nhi_swnir_band_eq (img : List Pixel) :
    L_nhi_swnir_band img = img.map swnirSpecPx := by
  induction img with
  | nil => rfl
  | cons p rest ih =>
    simp only [L_nhi_swnir_band, img_nd, band_gt, updateMask, List.map_cons,
      List.zipWith_cons_cons, List.map_cons] at *
    refine congrArg₂ List.cons ?_ ih
    unfold swnirSpecPx
    rcases h : ndPix p.B6 p.B5 with _ | v
    · rfl
    · by_cases hv : (0 : Rat) < v
      · simp [Option.map, hv]
      · simp [Option.map, hv]

theorem L_ext_band_eq (img : List Pixel) :
    L_ext_band img = img.map (fun p => if extClassified p then some 1 else none) := by
  induction img with
  | nil => rfl
  | cons p rest ih =>
    simp only [L_ext_band, img_nd, img_band, band_gte, band_lt, band_and,
      band_gt, updateMask, List.map_cons, List.zipWith_cons_cons] at *
    refine congrArg₂ List.cons ?_ ih
    unfold extClassified
    rcases h : ndPix p.B7 p.B6 with _ | v
    · rfl
    · by_cases h1 : (713 : Rat) / 10 ≤ p.B6 <;> by_cases h2 : p.B1 < 70 <;>
        by_cases h3 : v = 0 <;>
        simp [Option.map, h1, h2, h3]

/-! ## Archive query and scene filtering (source: L8raw, L9raw)

The archive query is external; a raw scene is modelled by the facts the
filters inspect: its acquisition timestamp (milliseconds since the Unix
epoch, as in system:time_start), its SUN_ELEVATION metadata value, and
whether its footprint intersects the site point. -/

/-- Raw archive scene, carrying exactly what the collection filters read. -/
structure RawScene where
  timestamp : Nat
  sunElevation : Rat
  intersectsSite : Bool
deriving DecidableEq, Repr

/-- One day in milliseconds, the amount ee.Date.advance(1, day) adds. -/
def dayMs : Nat := 86400000

/-- ee.ImageCollection.filterDate(a, b): keeps scenes with a ≤ t < b
(start inclusive, end exclusive). -/
def filterDate (a b : Nat) (c : List RawScene) : List RawScene :=
  c.filter (fun s => decide (a ≤ s.timestamp) && decide (s.timestamp < b))

/-- filterMetadata(SUN_ELEVATION, greater_than, 0). -/
def filterSun (c : List RawScene) : List RawScene :=
  c.filter (fun s => decide (0 < s.sunElevation))

/-- filter(ee.Filter.bounds(punto)): keeps scenes whose footprint
intersects the site point. -/
def filterBounds (c : List RawScene) : List RawScene :=
  c.filter (fun s => s.intersectsSite)

/-- The chain applied to each raw Landsat archive (source lines 214-224):
.filterDate(start, end).filterDate(start, end + 1 day)
.filterMetadata(SUN_ELEVATION, greater_than, 0).select(bands)
.filter(bounds(point)).  Band selection does not change membership. -/
def rawSceneQuery (start endd : Nat) (archive : List RawScene) : List RawScene :=
  filterBounds (filterSun (filterDate start (endd + dayMs) (filterDate start endd archive)))

/-- L8raw.merge(L9raw): the Landsat 8 and Landsat 9 query results joined
into the collection that enters calibration. -/
def mergedRaw (start endd : Nat) (a8 a9 : List RawScene) : List RawScene :=
  rawSceneQuery start endd a8 ++ rawSceneQuery start endd a9

/-- Claim-side membership condition of C1: footprint intersects the site,
sun elevation strictly positive, and timestamp in the half-open interval
from start to end plus one day. -/
def c1ClaimPred (start endd : Nat) (s : RawScene) : Bool :=
  s.intersectsSite && decide (0 < s.sunElevation) &&
    decide (start ≤ s.timestamp) && decide (s.timestamp < endd + dayMs)

/-! ## Radiance masks and per-scene totals (source lines 327-351, 424-455) -/

/-- mask_L_B6_swir: B6 masked by normalizedDifference(B7, B6).gte(0). -/
def mask_L_B6_swir (img : List Pixel) : Band :=
  updateMask (img_band img Pixel.B6) (band_gte (img_nd img Pixel.B7 Pixel.B6) 0)

/-- mask_L_B6_swnir: B6 masked by normalizedDifference(B6, B5).gte(0). -/
def mask_L_B6_swnir (img : List Pixel) : Band :=
  updateMask (img_band img Pixel.B6) (band_gte (img_nd img Pixel.B6 Pixel.B5) 0)

/-- mask_L_B7_swir: B7 masked by normalizedDifference(B7, B6).gte(0). -/
def mask_L_B7_swir (img : List Pixel) : Band :=
  updateMask (img_band img Pixel.B7) (band_gte (img_nd img Pixel.B7 Pixel.B6) 0)

/-- mask_L_B7_swnir: B7 masked by normalizedDifference(B6, B5).gte(0). -/
def mask_L_B7_swnir (img : List Pixel) : Band :=
  updateMask (img_band img Pixel.B7) (band_gte (img_nd img Pixel.B6 Pixel.B5) 0)

/-- count_pixels_per_image over a classified collection and a derived band:
one count per scene, reduced over the scene footprint. -/
def count_pixels_per_image (coll : List (List Pixel)) (band : List Pixel → Band) :
    List Nat :=
  coll.map (fun img => countReduce (band img))

/-- sum_band_each_image: one per-scene sum (null when nothing qualifies). -/
def sum_band_each_image (coll : List (List Pixel)) (band : List Pixel → Band) :
    List (Option Rat) :=
  coll.map (fun img => sumReduce (band img))

/-- rad_tot_Lb6 = eelist2float(Lrad_b6_swir) + eelist2float(Lrad_b6_swnir):
per-scene B6 totals, adding the SWIR-masked and SWNIR-masked sums
elementwise (nan when a side is null). -/
def rad_tot_Lb6 (Lcal : List (List Pixel)) : List (Option Rat) :=
  List.zipWith optAdd (sum_band_each_image Lcal mask_L_B6_swir)
    (sum_band_each_image Lcal mask_L_B6_swnir)

/-- rad_tot_Lb7, as rad_tot_Lb6 with band B7. -/
def rad_tot_Lb7 (Lcal : List (List Pixel)) : List (Option Rat) :=
  List.zipWith optAdd (sum_band_each_image Lcal mask_L_B7_swir)
    (sum_band_each_image Lcal mask_L_B7_swnir)

/-! ## Spec-side predicates and sums for claim C2 -/

/-- Pixel satisfies the strict SWIR classifier predicate of section 4.2:
the normalized difference exists and is strictly positive. -/
def swirHotPred (p : Pixel) : Bool :=
  match ndPix p.B7 p.B6 with
  | some v => decide (0 < v)
  | none => false

/-- Pixel satisfies the strict SWNIR classifier predicate of section 4.2. -/
def swnirHotPred (p : Pixel) : Bool :=
  match ndPix p.B6 p.B5 with
  | some v => decide (0 < v)
  | none => false

/-- Pixel satisfies the non-strict SWIR mask predicate actually used by the
radiance masks: the normalized difference exists and is at least zero. -/
def swirGePred (p : Pixel) : Bool :=
  match ndPix p.B7 p.B6 with
  | some v => decide (0 ≤ v)
  | none => false

/-- Pixel satisfies the non-strict SWNIR mask predicate actually used by
the radiance masks. -/
def swnirGePred (p : Pixel) : Bool :=
  match ndPix p.B6 p.B5 with
  | some v => decide (0 ≤ v)
  | none => false

/-- Band holding a pixel attribute only where a predicate holds. -/
def pixValWhere (pred : Pixel → Bool) (v : Pixel → Rat) (img : List Pixel) : Band :=
  img.map (fun p => if pred p then some (v p) else none)

/-- Per-scene radiance total as claim C2 words it: the sum of the band over
the pixels satisfying one classifier predicate plus the sum over the pixels
satisfying the other, with an absent sum propagating. -/
def claimRadTotal (predA predB : Pixel → Bool) (v : Pixel → Rat) (img : List Pixel) :
    Option Rat :=
  optAdd (sumReduce (pixValWhere predA v img)) (sumReduce (pixValWhere predB v img))

/-- Generic pointwise description of the four radiance masks: the masked
band keeps the attribute exactly at the pixels whose normalized difference
of bands a and b exists and is at least zero. -/
theorem radianceMask_eq (img : List Pixel) (a b v : Pixel → Rat) :
    updateMask (img_band img v) (band_gte (img_nd img a b) 0) =
      img.map (fun p =>
        if (match ndPix (a p) (b p) with
            | some w => decide (0 ≤ w)
            | none => false) then some (v p) else none) := by
  induction img with
  | nil => rfl
  | cons p rest ih =>
    simp only [updateMask, img_band, band_gte, img_nd, List.map_cons,
      List.zipWith_cons_cons] at *
    refine congrArg₂ List.cons ?_ ih
    rcases h : ndPix (a p) (b p) with _ | w
    · rfl
    · by_cases hw : (0 : Rat) ≤ w
      · simp [Option.map, hw]
      · simp [Option.map, hw]

/-! ## Empty-scene filter (source: filter_empty_images, lines 177-201)

The source selects one derived band from the classified collection and, per
scene, binarizes it (neq 0), reduces with a maximum over the region of
interest at 30 m, keeps the scene when the result equals 1.  Selection of
the band is modelled by the band-extraction function argument. -/

/-- check_for_data for one scene: max reduction of the binarized band; the
across-band ee.Reducer.max is the identity on a single-band image. -/
def check_for_data (band : Band) : Option Rat :=
  maxReduce (band_neq band 0)

/-- filter_empty_images on a classified collection restricted to one
derived band: keep the scenes whose has_data property equals 1. -/
def filter_empty_images (coll : List (List Pixel)) (band : List Pixel → Band) :
    List (List Pixel) :=
  coll.filter (fun img => decide (check_for_data (band img) = some 1))

/-! ## Report stage (source lines 589-634) -/

/-- ResultRow before date formatting: the Date column (timestamp in
milliseconds) and the eight numeric columns zipped into the DataFrame. -/
structure ResultRow where
  ts : Nat
  swirCount : Nat
  swnirCount : Nat
  combinedCount : Nat
  hotArea : Nat
  extCount : Nat
  extArea : Nat
  radB6 : Option Rat
  radB7 : Option Rat
deriving DecidableEq, Repr

/-- Row of the written table: the Date column replaced by its formatted
string, every other column unchanged. -/
structure FormattedRow where
  dateStr : String
  swirCount : Nat
  swnirCount : Nat
  combinedCount : Nat
  hotArea : Nat
  extCount : Nat
  extArea : Nat
  radB6 : Option Rat
  radB7 : Option Rat
deriving DecidableEq, Repr

/-- Python zip over the nine columns: truncates at the shortest list. -/
def zipRows : List Nat → List Nat → List Nat → List Nat → List Nat →
    List Nat → List Nat → List (Option Rat) → List (Option Rat) → List ResultRow
  | t :: l1, a :: l2, b :: l3, c :: l4, d :: l5, e :: l6, f :: l7, g :: l8, h :: l9 =>
      ⟨t, a, b, c, d, e, f, g, h⟩ :: zipRows l1 l2 l3 l4 l5 l6 l7 l8 l9
  | _, _, _, _, _, _, _, _, _ => []

/-- nhi_tot_hpc = nhi_tot_swir_pc + nhi_tot_swnir_pc (numpy elementwise). -/
def nhi_tot_hpc (swir swnir : List Nat) : List Nat :=
  List.zipWith (fun a b => a + b) swir swnir

/-- nhi_tot_area = nhi_tot_hpc * 900 (30 m pixels: 900 square meters). -/
def nhi_tot_area (hpc : List Nat) : List Nat :=
  hpc.map (fun n => n * 900)

/-- L_nhi_ep_pc_area = L_nhi_ep_pc * 900. -/
def L_nhi_ep_pc_area (ep : List Nat) : List Nat :=
  ep.map (fun n => n * 900)

/-- The DataFrame rows as zipped in the source: dates, SWIR counts, SWNIR
counts, their sum, the hot-pixel area, extreme counts, extreme area, and
the two radiance totals. -/
def buildRows (fechas swir swnir ep : List Nat) (rb6 rb7 : List (Option Rat)) :
    List ResultRow :=
  zipRows fechas swir swnir (nhi_tot_hpc swir swnir)
    (nhi_tot_area (nhi_tot_hpc swir swnir)) ep (L_nhi_ep_pc_area ep) rb6 rb7

/-- df.sort_values(by Date, ascending): a comparison sort of the rows on
the Date column. -/
def sortRows (rows : List ResultRow) : List ResultRow :=
  List.insertionSort (fun a b => a.ts ≤ b.ts) rows

instance : IsTotal ResultRow (fun a b => a.ts ≤ b.ts) :=
  ⟨fun a b => Nat.le_total a.ts b.ts⟩

instance : IsTrans ResultRow (fun a b => a.ts ≤ b.ts) :=
  ⟨fun _ _ _ hab hbc => Nat.le_trans hab hbc⟩

/-! ### Date formatting: strftime with format %Y-%b-%d on a UTC timestamp

pandas converts the millisecond timestamps to proleptic Gregorian UTC
datetimes (pd.to_datetime, unit ms) and strftime renders year, abbreviated
C-locale month name, zero-padded day.  The Gregorian conversion is spelled
out as a year walk and a month-table walk; pandas timestamps fall in years
1970 to 2262 here, so the year always has exactly four digits. -/

/-- Gregorian leap-year rule. -/
def isLeap (y : Nat) : Bool :=
  (y % 4 == 0 && y % 100 != 0) || (y % 400 == 0)

/-- Days in a Gregorian year. -/
def daysInYear (y : Nat) : Nat :=
  if isLeap y then 366 else 365

/-- Walk forward from a base year, consuming whole years from a count of
days; fuel bounds the number of steps (one step consumes at least 365
days, so days / 365 + 1 steps always suffice). -/
def yearFrom : Nat → Nat → Nat → Nat × Nat
  | 0, y, d => (y, d)
  | fuel + 1, y, d =>
      if d < daysInYear y then (y, d) else yearFrom fuel (y + 1) (d - daysInYear y)

/-- Month lengths of a year paired with the C-locale abbreviated names. -/
def monthTable (y : Nat) : List (Nat × String) :=
  [(31, "Jan"), ((if isLeap y then 29 else 28), "Feb"), (31, "Mar"),
   (30, "Apr"), (31, "May"), (30, "Jun"), (31, "Jul"), (31, "Aug"),
   (30, "Sep"), (31, "Oct"), (30, "Nov"), (31, "Dec")]

/-- Walk the month table with a zero-based day of year, producing the month
name and the one-based day of month. -/
def lookupMonth : List (Nat × String) → Nat → String × Nat
  | [], d => ("Dec", d + 1)
  | (len, name) :: rest, d =>
      if d < len then (name, d + 1) else lookupMonth rest (d - len)

/-- Year and zero-based day of year of a count of days since 1970-01-01. -/
def yearDayOfDays (days : Nat) : Nat × Nat :=
  yearFrom (days / 365 + 1) 1970 days

/-- Milliseconds since the epoch to (year, month name, day of month). -/
def civilOfMs (ms : Nat) : Nat × String × Nat :=
  ((yearDayOfDays (ms / dayMs)).1,
    lookupMonth (monthTable (yearDayOfDays (ms / dayMs)).1) (yearDayOfDays (ms / dayMs)).2)

/-- Decimal digit character of n mod 10. -/
def digitChar10 (n : Nat) : Char :=
  Char.ofNat (48 + n % 10)

/-- Four decimal digits (the %Y field; years 1970 to 2262 here). -/
def pad4 (n : Nat) : String :=
  String.mk [digitChar10 (n / 1000), digitChar10 (n / 100), digitChar10 (n / 10),
    digitChar10 n]

/-- Two decimal digits (the %d field, zero padded). -/
def pad2 (n : Nat) : String :=
  String.mk [digitChar10 (n / 10), digitChar10 n]

/-- strftime(%Y-%b-%d) of a millisecond timestamp. -/
def formatDate (ms : Nat) : String :=
  pad4 (civilOfMs ms).1 ++ "-" ++ (civilOfMs ms).2.1 ++ "-" ++ pad2 (civilOfMs ms).2.2

/-- Replace the Date column of a row by its formatted string. -/
def formatRow (r : ResultRow) : FormattedRow :=
  ⟨formatDate r.ts, r.swirCount, r.swnirCount, r.combinedCount, r.hotArea,
    r.extCount, r.extArea, r.radB6, r.radB7⟩

/-- The final ResultTable as written to the CSV: rows zipped, sorted
ascending by date, then the Date column formatted. -/
def finalTable (fechas swir swnir ep : List Nat) (rb6 rb7 : List (Option Rat)) :
    List FormattedRow :=
  (sortRows (buildRows fechas swir swnir ep rb6 rb7)).map formatRow

/-- The twelve C-locale month abbreviations. -/
def monthNames : List String :=
  ["Jan", "Feb", "Mar", "Apr", "May", "Jun", "Jul", "Aug", "Sep", "Oct",
   "Nov", "Dec"]

/-- String made of decimal digit characters only. -/
def digitsOnly (s : String) : Prop :=
  ∀ c ∈ s.data, c.isDigit = true

/-- Shape YYYY-Mon-DD: four digits, a hyphen, an abbreviated month name, a
hyphen, two digits. -/
def dateShape (s : String) : Prop :=
  ∃ ys ms ds, s = ys ++ "-" ++ ms ++ "-" ++ ds ∧ ys.length = 4 ∧ digitsOnly ys ∧
    ms ∈ monthNames ∧ ds.length = 2 ∧ digitsOnly ds

/-! ## Export stage control flow (source lines 540-575)

For each classifier subset the script checks the kept-scene count: when it
is zero it only prints an informational message; otherwise it creates the
classifier folder when absent, exports the rasters, and vectorizes each
scene.  The observable effects of one branch are recorded as data. -/

/-- Observable effects of one classifier export branch. -/
structure ExportEffects where
  infoPrinted : Bool
  dirCreated : Bool
  rastersExported : Bool
  shapesExported : Bool
deriving DecidableEq, Repr

/-- One export branch: size-zero subsets only print the informational
message; non-empty subsets create the folder when it does not exist yet and
run the raster and vector exports. -/
def exportBranch (subsetSize : Nat) (dirExisted : Bool) : ExportEffects :=
  if subsetSize = 0 then
    { infoPrinted := true, dirCreated := false, rastersExported := false,
      shapesExported := false }
  else
    { infoPrinted := false, dirCreated := !dirExisted, rastersExported := true,
      shapesExported := true }

/-- The three export branches followed unconditionally by the report stage:
the script runs them in sequence and always reaches the CSV writing. -/
def runExportAndReport (s1 s2 s3 : Nat) (d1 d2 d3 : Bool)
    (fechas swir swnir ep : List Nat) (rb6 rb7 : List (Option Rat)) :
    (ExportEffects × ExportEffects × ExportEffects) × List FormattedRow :=
  ((exportBranch s1 d1, exportBranch s2 d2, exportBranch s3 d3),
    finalTable fechas swir swnir ep rb6 rb7)

/-! ## Per-scene vectorization loop (source: gee_raster_2_shp, lines 459-501)

The loop walks the scenes of one subset.  For each scene the vectorization
call and the shapefile write sit inside a try block; an exception is
printed with the scene identifier and the loop moves on.  A scene whose
vectorization yields no features is reported and skipped without writing a
file. -/

/-- One scene of an export subset, carrying its identifier and the outcomes
of the two external calls made for it: the vectorization (list of polygon
features, or an exception message) and the shapefile write. -/
structure ExportScene where
  id : String
  vectorized : Except String (List Nat)
  writeOutcome : Except String Unit
deriving Repr

/-- What happened for one scene of the loop. -/
inductive SceneResult where
  | saved (id : String)
  | skippedNoData (id : String)
  | errorReported (id : String) (msg : String)
deriving DecidableEq, Repr

/-- Body of the loop for one scene. -/
def exportSceneStep (s : ExportScene) : SceneResult :=
  match s.vectorized with
  | .error e => .errorReported s.id e
  | .ok feats =>
      if feats.isEmpty then .skippedNoData s.id
      else
        match s.writeOutcome with
        | .ok _ => .saved s.id
        | .error e => .errorReported s.id e

/-- gee_raster_2_shp: the loop over every scene of the subset, in order. -/
def gee_raster_2_shp : List ExportScene → List SceneResult
  | [] => []
  | s :: rest => exportSceneStep s :: gee_raster_2_shp rest

/-! ## Parameter loader (source lines 117-142)

After the required-key check the script assigns
lon = float(params.get(lon)), then lat, then radio; a value float() cannot
parse raises ValueError there, uncaught, so the process dies with a
traceback before the range validation below runs.  Python float parsing is
embedded over the characters of the value: optional surrounding whitespace,
an optional sign, then either an inf/infinity/nan word (any case) or a
decimal mantissa with optional fraction and exponent, with single
underscores allowed between digits.  Finite values are kept as exact decimal
rationals (binary rounding of CPython floats is abstracted away; the range
checks against the integer bounds are unaffected for the values at stake). -/

/-- Result of CPython float(): a finite value, a signed infinity, or nan. -/
inductive PyFloat where
  | finite (q : Rat)
  | inf
  | negInf
  | nan
deriving DecidableEq, Repr

/-- Digit run continuation: consumes digits with single underscores allowed
between digits, stops at the first other character; an underscore not
followed by a digit makes the whole parse fail. -/
def digitRunGo : List Char → Option (List Char × List Char)
  | [] => some ([], [])
  | ['_'] => none
  | '_' :: c :: rest =>
      if c.isDigit then Option.map (fun pr => (c :: pr.1, pr.2)) (digitRunGo rest)
      else none
  | c :: rest =>
      if c.isDigit then Option.map (fun pr => (c :: pr.1, pr.2)) (digitRunGo rest)
      else some ([], c :: rest)

/-- A nonempty digit run (must start with a digit). -/
def parseRun (l : List Char) : Option (List Char × List Char) :=
  match l with
  | c :: rest =>
      if c.isDigit then Option.map (fun pr => (c :: pr.1, pr.2)) (digitRunGo rest)
      else none
  | [] => none

/-- Numeric value of a list of decimal digits. -/
def natOfDigits (l : List Char) : Nat :=
  l.foldl (fun a c => 10 * a + (c.toNat - 48)) 0

/-- Apply a decimal exponent to a mantissa. -/
def applyExp (m : Rat) (eneg : Bool) (e : Nat) : Rat :=
  if eneg then m / 10 ^ e else m * 10 ^ e

/-- Exponent after the e or E: optional sign and a digit run consuming the
rest of the input. -/
def parseExpTail (l : List Char) : Option (Bool × Nat) :=
  match l with
  | '+' :: rest =>
      (parseRun rest).bind fun pr =>
        if pr.2.isEmpty then some (false, natOfDigits pr.1) else none
  | '-' :: rest =>
      (parseRun rest).bind fun pr =>
        if pr.2.isEmpty then some (true, natOfDigits pr.1) else none
  | _ =>
      (parseRun l).bind fun pr =>
        if pr.2.isEmpty then some (false, natOfDigits pr.1) else none

/-- After the mantissa digits: either the end of the input or an exponent
part. -/
def parseAfterMantissa (mantDigits : List Char) (scale : Nat) (rest : List Char) :
    Option Rat :=
  let m : Rat := (natOfDigits mantDigits : Rat) / 10 ^ scale
  match rest with
  | [] => some m
  | c :: rest2 =>
      if c = 'e' ∨ c = 'E' then
        (parseExpTail rest2).map (fun se => applyExp m se.1 se.2)
      else none

/-- Unsigned finite float literal: digits, optional point and fraction
digits, optional exponent; or a leading point followed by fraction digits. -/
def parseUnsigned (l : List Char) : Option Rat :=
  match parseRun l with
  | some (ip, rest) =>
      (match rest with
       | '.' :: rest2 =>
           (match parseRun rest2 with
            | some (fp, rest3) => parseAfterMantissa (ip ++ fp) fp.length rest3
            | none => parseAfterMantissa ip 0 rest2)
       | _ => parseAfterMantissa ip 0 rest)
  | none =>
      (match l with
       | '.' :: rest2 =>
           (match parseRun rest2 with
            | some (fp, rest3) => parseAfterMantissa fp fp.length rest3
            | none => none)
       | _ => none)

/-- Strip surrounding whitespace from a character list. -/
def trimChars (l : List Char) : List Char :=
  ((l.dropWhile Char.isWhitespace).reverse.dropWhile Char.isWhitespace).reverse

/-- CPython float(str): strip, optional sign, then an infinity or nan word
(any case) or a finite decimal literal; none models a ValueError. -/
def pyFloat (s : String) : Option PyFloat :=
  let l := trimChars s.data
  let sn :=
    match l with
    | '+' :: r => (false, r)
    | '-' :: r => (true, r)
    | _ => (false, l)
  let low := sn.2.map Char.toLower
  if low = "inf".data ∨ low = "infinity".data then
    some (if sn.1 then .negInf else .inf)
  else if low = "nan".data then some .nan
  else (parseUnsigned sn.2).map (fun q => .finite (if sn.1 then -q else q))

/-- Python comparison a <= b on floats: false whenever a side is nan. -/
def pyLe : PyFloat → PyFloat → Bool
  | .nan, _ => false
  | _, .nan => false
  | .negInf, _ => true
  | _, .negInf => false
  | _, .inf => true
  | .inf, _ => false
  | .finite a, .finite b => decide (a ≤ b)

/-- Integer constant as a Python float operand. -/
def pfInt (n : Int) : PyFloat :=
  .finite (n : Rat)

/-- The validated Site produced on success. -/
structure Site where
  volcan : String
  lon : PyFloat
  lat : PyFloat
  radio : PyFloat
  start : String
  endd : String
  gmail : String
deriving DecidableEq, Repr

/-- How the assignment-and-validation block ends: an uncaught ValueError
from a float() call (process dies with a traceback, no diagnostic), a
printed diagnostic followed by sys.exit(1), or a validated Site. -/
inductive LoaderOutcome where
  | valueError (param : String)
  | rangeExit (msg : String)
  | ok (site : Site)
deriving DecidableEq, Repr

/-- Source lines 125-142 given the seven raw values (the required-key check
has already passed): convert lon, lat, radio with float() in that order,
then validate coordinate ranges, then the radius, then non-empty dates. -/
def assignAndValidate (volcanV lonV latV radioV startV endV gmailV : String) :
    LoaderOutcome :=
  match pyFloat lonV with
  | none => .valueError ("lon")
  | some lon =>
    match pyFloat latV with
    | none => .valueError ("lat")
    | some lat =>
      match pyFloat radioV with
      | none => .valueError ("radio")
      | some radio =>
        if ¬ (pyLe (pfInt (-180)) lon = true ∧ pyLe lon (pfInt 180) = true ∧
              pyLe (pfInt (-90)) lat = true ∧ pyLe lat (pfInt 90) = true) then
          .rangeExit ("Coordinates lon/lat are out of a valid range")
        else if pyLe radio (pfInt 0) = true then
          .rangeExit ("The serach radius must be in km and greater than 0")
        else if (trimChars startV.data).isEmpty ∨ (trimChars endV.data).isEmpty then
          .rangeExit ("You must provide the start and end dates")
        else
          .ok ⟨(trimChars volcanV.data).asString, lon, lat, radio,
            (trimChars startV.data).asString, (trimChars endV.data).asString,
            (trimChars gmailV.data).asString⟩

/-! ## Supporting lemmas -/

/-- Membership in one filtered archive query: in the archive, intersecting
the site, positive sun elevation, and timestamp in [start, end) — the
conjunction of the two date filters collapses to the narrower interval. -/
theorem mem_rawSceneQuery (start endd : Nat) (archive : List RawScene) (s : RawScene) :
    s ∈ rawSceneQuery start endd archive ↔
      s ∈ archive ∧ s.intersectsSite = true ∧ 0 < s.sunElevation ∧
        start ≤ s.timestamp ∧ s.timestamp < endd := by
  unfold rawSceneQuery filterBounds filterSun filterDate
  simp only [List.mem_filter, Bool.and_eq_true, decide_eq_true_eq]
  constructor
  · rintro ⟨⟨⟨⟨h0, h1, h2⟩, _, _⟩, h5⟩, h6⟩
    exact ⟨h0, h6, h5, h1, h2⟩
  · rintro ⟨h0, h6, h5, h1, h2⟩
    exact ⟨⟨⟨⟨h0, h1, h2⟩, h1, Nat.lt_of_lt_of_le h2 (Nat.le_add_right endd dayMs)⟩, h5⟩, h6⟩

theorem mask_L_B6_swir_eq (img : List Pixel) :
    mask_L_B6_swir img = pixValWhere swirGePred Pixel.B6 img := by
  rw [mask_L_B6_swir, radianceMask_eq]; rfl

theorem mask_L_B6_swnir_eq (img : List Pixel) :
    mask_L_B6_swnir img = pixValWhere swnirGePred Pixel.B6 img := by
  rw [mask_L_B6_swnir, radianceMask_eq]; rfl

theorem mask_L_B7_swir_eq (img : List Pixel) :
    mask_L_B7_swir img = pixValWhere swirGePred Pixel.B7 img := by
  rw [mask_L_B7_swir, radianceMask_eq]; rfl

theorem mask_L_B7_swnir_eq (img : List Pixel) :
    mask_L_B7_swnir img = pixValWhere swnirGePred Pixel.B7 img := by
  rw [mask_L_B7_swnir, radianceMask_eq]; rfl

theorem zipWith_map_same {α β γ δ : Type _} (f : α → β) (g : α → γ) (h : β → γ → δ) :
    ∀ l : List α, List.zipWith h (l.map f) (l.map g) = l.map (fun x => h (f x) (g x)) := by
  intro l
  induction l with
  | nil => rfl
  | cons x xs ih => simp [ih]

/-! ## Claims C1, C2, C3, C5 -/

/-- Scene on the end date itself: acquired exactly at end (midnight),
positive sun elevation, footprint containing the site point. -/
def c1Scene : RawScene := ⟨86400000, 1, true⟩

/-- C1 counterexample: with start_date = 0 and end_date = 86400000 (one day
later), the scene acquired at the end date satisfies every condition the
claim lists (intersects the site, sun elevation above zero, timestamp in
[start, end + 1 day)), yet the queried-and-merged collection entering the
pipeline is empty: the first filterDate call already restricts to
[start, end). -/
theorem c1_counterexample :
    c1ClaimPred 0 86400000 c1Scene = true ∧ mergedRaw 0 86400000 [c1Scene] [] = [] := by
  constructor
  · norm_num [c1ClaimPred, c1Scene, dayMs]
  · simp only [mergedRaw, rawSceneQuery, filterDate, filterSun, filterBounds, c1Scene]
    norm_num [List.filter]

/-- C1 amended: the scenes entering the pipeline are exactly the Landsat 8
and Landsat 9 archive scenes whose footprint intersects the site point,
whose sun elevation is strictly positive, and whose acquisition timestamp
lies in the half-open interval [start_date, end_date) — the intersection of
the two chained date filters, not [start_date, end_date + 1 day). -/
theorem c1_amended :
    ∀ (start endd : Nat) (a8 a9 : List RawScene) (s : RawScene),
      s ∈ mergedRaw start endd a8 a9 ↔
        (s ∈ a8 ∨ s ∈ a9) ∧ s.intersectsSite = true ∧ 0 < s.sunElevation ∧
          start ≤ s.timestamp ∧ s.timestamp < endd := by
  intro start endd a8 a9 s
  unfold mergedRaw
  rw [List.mem_append, mem_rawSceneQuery, mem_rawSceneQuery]
  tauto

/-- Single-pixel scene with B7 = B6 = 5: its SWIR normalized difference is
exactly 0, so the pixel is in the gte(0) radiance mask but fails the strict
classifier predicate. -/
def pC2 : Pixel := ⟨0, 1, 5, 5⟩

/-- C2 counterexample: on the one-pixel scene with B6 = B7 = 5 and B5 = 1,
the per-scene B6 total computed by the code is 10 (the pixel passes both
gte(0) masks), while the total built from the strict classifier predicates
of section 4.2, as the claim words it, has no SWIR-qualifying pixel at all
(null sum, hence nan): the two disagree. -/
theorem c2_counterexample :
    rad_tot_Lb6 [[pC2]] = [some 10] ∧
      claimRadTotal swirHotPred swnirHotPred Pixel.B6 [pC2] = none ∧
      rad_tot_Lb6 [[pC2]] ≠ [claimRadTotal swirHotPred swnirHotPred Pixel.B6 [pC2]] := by
  have h1 : rad_tot_Lb6 [[pC2]] = [some 10] := by
    rw [rad_tot_Lb6]
    unfold sum_band_each_image
    rw [List.map_singleton, List.map_singleton, mask_L_B6_swir_eq, mask_L_B6_swnir_eq]
    norm_num [pixValWhere, swirGePred, swnirGePred, ndPix, pC2, sumReduce,
      List.filterMap, optAdd, List.zipWith]
  have h2 : claimRadTotal swirHotPred swnirHotPred Pixel.B6 [pC2] = none := by
    norm_num [claimRadTotal, pixValWhere, swirHotPred, swnirHotPred, ndPix, pC2,
      sumReduce, List.filterMap, optAdd]
  exact ⟨h1, h2, by rw [h1, h2]; simp⟩

/-- C2 amended: for every calibrated scene and each of B6 and B7, the
per-scene radiance total equals the sum over the pixels whose SWIR
normalized difference is at least zero plus the sum over the pixels whose
SWNIR normalized difference is at least zero — the masks use the non-strict
gte(0) predicates, not the strict classifier predicates of section 4.2. -/
theorem c2_amended :
    ∀ Lcal : List (List Pixel),
      rad_tot_Lb6 Lcal = Lcal.map (claimRadTotal swirGePred swnirGePred Pixel.B6) ∧
        rad_tot_Lb7 Lcal = Lcal.map (claimRadTotal swirGePred swnirGePred Pixel.B7) := by
  intro Lcal
  constructor
  · unfold rad_tot_Lb6 sum_band_each_image
    rw [zipWith_map_same]
    simp only [mask_L_B6_swir_eq, mask_L_B6_swnir_eq]
    rfl
  · unfold rad_tot_Lb7 sum_band_each_image
    rw [zipWith_map_same]
    simp only [mask_L_B7_swir_eq, mask_L_B7_swnir_eq]
    rfl

/-- C3: over every calibrated scene the extreme band holds the value 1
exactly at the pixels where the compound value
nd(B7,B6) AND (B6 ≥ 71.3) AND (B1 < 70) is strictly positive — the AND
treating any nonzero operand (a negative normalized difference included) as
true — and is masked (absent, not zero) at every other pixel; extClassified
spells out that compound condition. -/
theorem c3_extreme_classifier :
    (∀ img : List Pixel,
        L_ext_band img = img.map (fun p => if extClassified p then some 1 else none)) ∧
      (∀ p : Pixel, extClassified p = true ↔
        (∃ v, ndPix p.B7 p.B6 = some v ∧ v ≠ 0) ∧
          (713 : Rat) / 10 ≤ p.B6 ∧ p.B1 < 70) := by
  refine ⟨L_ext_band_eq, ?_⟩
  intro p
  unfold extClassified
  rcases h : ndPix p.B7 p.B6 with _ | v
  · simp [h]
  · simp [h, and_assoc]

/-- The synthetic pixel of the spec: B1 = 50, B5 = 40, B6 = 60, B7 = 80. -/
def c5Pix : Pixel := ⟨50, 40, 60, 80⟩

/-- C5: the SWIR classifier band is the normalized difference (B7-B6)/(B7+B6)
retained exactly where strictly positive, the SWNIR band is (B6-B5)/(B6+B5)
retained exactly where strictly positive, and on the pixel with B7 = 80,
B6 = 60, B5 = 40 both classifiers mark the pixel hot (one hot pixel each). -/
theorem c5_swir_swnir_classifiers :
    (∀ img : List Pixel, L_nhi_swir_band img = img.map swirSpecPx) ∧
      (∀ img : List Pixel, L_nhi_swnir_band img = img.map swnirSpecPx) ∧
      countReduce (L_nhi_swir_band [c5Pix]) = 1 ∧
      countReduce (L_nhi_swnir_band [c5Pix]) = 1 := by
  refine ⟨L_nhi_swir_band_eq, L_nhi_swnir_band_eq, ?_, ?_⟩
  · rw [L_nhi_swir_band_eq]
    norm_num [swirSpecPx, ndPix, c5Pix, countReduce, List.filterMap]
  · rw [L_nhi_swnir_band_eq]
    norm_num [swnirSpecPx, ndPix, c5Pix, countReduce, List.filterMap]

/-! ## Claims C4 and C6 -/

/-- Every row zipped from the columns the report stage builds satisfies the
count and area invariants, whatever the (possibly truncating) input lists. -/
theorem zipRows_invariant :
    ∀ (l1 l2 l3 l6 : List Nat) (l8 l9 : List (Option Rat)) (r : ResultRow),
      r ∈ zipRows l1 l2 l3 (nhi_tot_hpc l2 l3) (nhi_tot_area (nhi_tot_hpc l2 l3))
          l6 (L_nhi_ep_pc_area l6) l8 l9 →
      r.combinedCount = r.swirCount + r.swnirCount ∧
        r.hotArea = r.combinedCount * 900 ∧ r.extArea = r.extCount * 900 := by
  intro l1
  induction l1 with
  | nil =>
    intro l2 l3 l6 l8 l9 r h
    exact absurd h (List.not_mem_nil r)
  | cons t l1 ih =>
    intro l2 l3 l6 l8 l9 r h
    rcases l2 with _ | ⟨a, l2⟩
    · exact absurd h (List.not_mem_nil r)
    rcases l3 with _ | ⟨b, l3⟩
    · exact absurd h (List.not_mem_nil r)
    rcases l6 with _ | ⟨e, l6⟩
    · exact absurd h (List.not_mem_nil r)
    rcases l8 with _ | ⟨x8, l8⟩
    · exact absurd h (List.not_mem_nil r)
    rcases l9 with _ | ⟨x9, l9⟩
    · exact absurd h (List.not_mem_nil r)
    · simp only [nhi_tot_hpc, nhi_tot_area, L_nhi_ep_pc_area, List.zipWith_cons_cons,
        List.map_cons, zipRows, List.mem_cons] at h
      rcases h with h | h
      · subst h
        exact ⟨rfl, rfl, rfl⟩
      · exact ih l2 l3 l6 l8 l9 r h

/-- C4: in every run (any column lists) and for every row of the final
written table, the combined hot-pixel count is the sum of the SWIR and
SWNIR counts, the hot-pixel area is the combined count times 900, and the
extreme-pixel area is the extreme count times 900. -/
theorem c4_row_invariants :
    ∀ (fechas swir swnir ep : List Nat) (rb6 rb7 : List (Option Rat))
      (fr : FormattedRow), fr ∈ finalTable fechas swir swnir ep rb6 rb7 →
      fr.combinedCount = fr.swirCount + fr.swnirCount ∧
        fr.hotArea = fr.combinedCount * 900 ∧ fr.extArea = fr.extCount * 900 := by
  intro fechas swir swnir ep rb6 rb7 fr h
  unfold finalTable at h
  rcases List.mem_map.mp h with ⟨r, hr, hfr⟩
  have hr2 : r ∈ buildRows fechas swir swnir ep rb6 rb7 :=
    (List.Perm.mem_iff (List.perm_insertionSort _ _)).mp hr
  unfold buildRows at hr2
  have hinv := zipRows_invariant fechas swir swnir ep rb6 rb7 r hr2
  subst hfr
  simpa [formatRow] using hinv

/-- Concrete row for the C4 witness run. -/
def c4Row : ResultRow := ⟨0, 2, 3, 5, 4500, 1, 900, some 1, some 2⟩

/-- Witness for C4: a one-scene run with 2 SWIR and 3 SWNIR hot pixels and
1 extreme pixel produces a table row satisfying all three invariants. -/
theorem c4_row_invariants_witness :
    formatRow c4Row ∈ finalTable [0] [2] [3] [1] [some 1] [some 2] ∧
      ((formatRow c4Row).combinedCount =
          (formatRow c4Row).swirCount + (formatRow c4Row).swnirCount ∧
        (formatRow c4Row).hotArea = (formatRow c4Row).combinedCount * 900 ∧
        (formatRow c4Row).extArea = (formatRow c4Row).extCount * 900) := by
  have hmem : formatRow c4Row ∈ finalTable [0] [2] [3] [1] [some 1] [some 2] := by
    simp [finalTable, buildRows, zipRows, nhi_tot_hpc, nhi_tot_area,
      L_nhi_ep_pc_area, sortRows, List.insertionSort, List.orderedInsert, c4Row]
  exact ⟨hmem, c4_row_invariants [0] [2] [3] [1] [some 1] [some 2] (formatRow c4Row) hmem⟩

/-- One-pixel scene hot for the SWNIR classifier (B6 = 30 above B5 = 10)
but not for the SWIR classifier (B7 = 20 below B6 = 30). -/
def c6Px : Pixel := ⟨0, 10, 30, 20⟩

/-- The scene built from that pixel. -/
def c6Scene : List Pixel := [c6Px]

/-- C6: a scene passes the empty-scene filter exactly when binarizing its
selected masked band and reducing with a maximum yields 1; the filter is
applied per classifier independently, witnessed by a scene excluded from
the SWIR subset while kept in the SWNIR subset. -/
theorem c6_empty_scene_filter :
    (∀ (coll : List (List Pixel)) (band : List Pixel → Band) (img : List Pixel),
        img ∈ filter_empty_images coll band ↔
          img ∈ coll ∧ check_for_data (band img) = some 1) ∧
      filter_empty_images [c6Scene] L_nhi_swir_band = [] ∧
      filter_empty_images [c6Scene] L_nhi_swnir_band = [c6Scene] := by
  refine ⟨?_, ?_, ?_⟩
  · intro coll band img
    unfold filter_empty_images
    rw [List.mem_filter]
    simp
  · have hswir : check_for_data (L_nhi_swir_band c6Scene) = none := by
      rw [show L_nhi_swir_band c6Scene = [swirSpecPx c6Px] from L_nhi_swir_band_eq c6Scene]
      norm_num [c6Px, swirSpecPx, ndPix, check_for_data, band_neq, maxReduce,
        List.filterMap]
    simp [filter_empty_images, hswir]
  · have hswnir : check_for_data (L_nhi_swnir_band c6Scene) = some 1 := by
      rw [show L_nhi_swnir_band c6Scene = [swnirSpecPx c6Px] from L_nhi_swnir_band_eq c6Scene]
      norm_num [c6Px, swnirSpecPx, ndPix, check_for_data, band_neq, maxReduce,
        List.filterMap, List.max?]
    simp [filter_empty_images, hswnir]

/-! ## Claims C8 and C9 -/

/-- C8: whenever a classifier subset after the empty-scene filter has size
zero, that branch of the export stage prints the informational message and
creates no output directory, exports nothing for that classifier, and the
run still reaches the report stage and produces the final table — stated
for each of the three classifier branches. -/
theorem c8_empty_subset_export :
    ∀ (n m : Nat) (d1 d2 d3 : Bool) (fechas swir swnir ep : List Nat)
      (rb6 rb7 : List (Option Rat)),
      (runExportAndReport 0 n m d1 d2 d3 fechas swir swnir ep rb6 rb7).1.1 =
          ⟨true, false, false, false⟩ ∧
        (runExportAndReport n 0 m d1 d2 d3 fechas swir swnir ep rb6 rb7).1.2.1 =
          ⟨true, false, false, false⟩ ∧
        (runExportAndReport n m 0 d1 d2 d3 fechas swir swnir ep rb6 rb7).1.2.2 =
          ⟨true, false, false, false⟩ ∧
        (runExportAndReport 0 n m d1 d2 d3 fechas swir swnir ep rb6 rb7).2 =
          finalTable fechas swir swnir ep rb6 rb7 := by
  intro n m d1 d2 d3 fechas swir swnir ep rb6 rb7
  refine ⟨?_, ?_, ?_, rfl⟩ <;> simp [runExportAndReport, exportBranch]

/-- C9: the vectorization loop processes every scene of a subset
independently and in order; a scene whose vectorization or write raises is
reported with its own identifier and the remaining scenes are still
processed; a scene vectorizing to zero features is skipped with a
diagnostic and produces no file instead of an error. -/
theorem c9_per_scene_export_recovery :
    (∀ scenes : List ExportScene,
        gee_raster_2_shp scenes = scenes.map exportSceneStep) ∧
      (∀ (pre post : List ExportScene) (i e : String) (w : Except String Unit),
        gee_raster_2_shp (pre ++ ⟨i, .error e, w⟩ :: post) =
          gee_raster_2_shp pre ++ .errorReported i e :: gee_raster_2_shp post) ∧
      (∀ (i : String) (w : Except String Unit),
        exportSceneStep ⟨i, .ok [], w⟩ = .skippedNoData i) := by
  have hmap : ∀ scenes : List ExportScene,
      gee_raster_2_shp scenes = scenes.map exportSceneStep := by
    intro scenes
    induction scenes with
    | nil => rfl
    | cons s rest ih => simp [gee_raster_2_shp, ih]
  refine ⟨hmap, ?_, ?_⟩
  · intro pre post i e w
    rw [hmap, List.map_append, List.map_cons, hmap, hmap]
    rfl
  · intro i w
    rfl

/-! ## Claim C7: sorting and date formatting of the report -/

theorem pad4_length (n : Nat) : (pad4 n).length = 4 := rfl

theorem pad2_length (n : Nat) : (pad2 n).length = 2 := rfl

theorem digitChar10_isDigit (n : Nat) : (digitChar10 n).isDigit = true := by
  unfold digitChar10
  have h : n % 10 < 10 := Nat.mod_lt n (by norm_num)
  revert h
  generalize n % 10 = m
  intro h
  interval_cases m <;> decide

theorem digitsOnly_pad4 (n : Nat) : digitsOnly (pad4 n) := by
  intro c hc
  simp only [pad4, String.mk, List.mem_cons] at hc
  rcases hc with rfl | rfl | rfl | rfl | h
  · exact digitChar10_isDigit _
  · exact digitChar10_isDigit _
  · exact digitChar10_isDigit _
  · exact digitChar10_isDigit _
  · exact absurd h (List.not_mem_nil c)

theorem digitsOnly_pad2 (n : Nat) : digitsOnly (pad2 n) := by
  intro c hc
  simp only [pad2, String.mk, List.mem_cons] at hc
  rcases hc with rfl | rfl | h
  · exact digitChar10_isDigit _
  · exact digitChar10_isDigit _
  · exact absurd h (List.not_mem_nil c)

theorem lookupMonth_name_mem :
    ∀ (tbl : List (Nat × String)) (d : Nat),
      (lookupMonth tbl d).1 ∈ tbl.map Prod.snd ∨ (lookupMonth tbl d).1 = "Dec" := by
  intro tbl
  induction tbl with
  | nil => intro d; exact Or.inr rfl
  | cons p rest ih =>
    intro d
    rcases p with ⟨len, name⟩
    by_cases h : d < len
    · simp [lookupMonth, h]
    · rcases ih (d - len) with hm | he
      · left
        simp only [lookupMonth, if_neg h, List.map_cons, List.mem_cons]
        exact Or.inr hm
      · right
        simp only [lookupMonth, if_neg h]
        exact he

theorem monthTable_names (y : Nat) : (monthTable y).map Prod.snd = monthNames := rfl

theorem civilOfMs_month_mem (ms : Nat) : (civilOfMs ms).2.1 ∈ monthNames := by
  show (lookupMonth (monthTable (yearDayOfDays (ms / dayMs)).1)
      (yearDayOfDays (ms / dayMs)).2).1 ∈ monthNames
  rcases lookupMonth_name_mem (monthTable (yearDayOfDays (ms / dayMs)).1)
      (yearDayOfDays (ms / dayMs)).2 with hm | he
  · rw [monthTable_names] at hm
    exact hm
  · rw [he]
    decide

/-- Every formatted date has the YYYY-Mon-DD shape. -/
theorem dateShape_formatDate (ms : Nat) : dateShape (formatDate ms) :=
  ⟨pad4 (civilOfMs ms).1, (civilOfMs ms).2.1, pad2 (civilOfMs ms).2.2, rfl,
    pad4_length _, digitsOnly_pad4 _, civilOfMs_month_mem ms, pad2_length _,
    digitsOnly_pad2 _⟩

/-- C7: whatever order the archive returns scenes and scalars in, the rows
of the written table are a permutation of the assembled rows sorted
non-decreasing by date, the written table is exactly that sorted sequence
with each Date column rendered, and every rendered date has the
YYYY-Mon-DD shape (four digits, abbreviated month name, two-digit day). -/
theorem c7_report_sorted_formatted :
    ∀ (fechas swir swnir ep : List Nat) (rb6 rb7 : List (Option Rat)),
      List.Perm (sortRows (buildRows fechas swir swnir ep rb6 rb7))
          (buildRows fechas swir swnir ep rb6 rb7) ∧
        List.Pairwise (fun a b : ResultRow => a.ts ≤ b.ts)
          (sortRows (buildRows fechas swir swnir ep rb6 rb7)) ∧
        finalTable fechas swir swnir ep rb6 rb7 =
          (sortRows (buildRows fechas swir swnir ep rb6 rb7)).map formatRow ∧
        ∀ fr ∈ finalTable fechas swir swnir ep rb6 rb7, dateShape fr.dateStr := by
  intro fechas swir swnir ep rb6 rb7
  refine ⟨List.perm_insertionSort _ _, List.sorted_insertionSort _ _, rfl, ?_⟩
  intro fr hfr
  rcases List.mem_map.mp hfr with ⟨r, _, hfr2⟩
  rw [← hfr2]
  exact dateShape_formatDate r.ts

/-- Witness for C7: a two-scene run handed over in reverse date order ends
up sorted, and the row dated at the 1970-01-02 timestamp renders with the
YYYY-Mon-DD shape. -/
theorem c7_report_sorted_formatted_witness :
    List.Pairwise (fun a b : ResultRow => a.ts ≤ b.ts)
        (sortRows (buildRows [86400000, 0] [1, 2] [3, 4] [5, 6]
          [some 1, some 2] [some 3, some 4])) ∧
      dateShape (formatRow ⟨86400000, 1, 3, 4, 3600, 5, 4500, some 1, some 3⟩).dateStr := by
  have h := c7_report_sorted_formatted [86400000, 0] [1, 2] [3, 4] [5, 6]
    [some 1, some 2] [some 3, some 4]
  refine ⟨h.2.1, h.2.2.2 _ ?_⟩
  simp [finalTable, buildRows, zipRows, nhi_tot_hpc, nhi_tot_area,
    L_nhi_ep_pc_area, sortRows, List.insertionSort, List.orderedInsert]

/-! ## Claim C10: loader conversion failures die before range validation -/

/-- C10: whenever any of the lon, lat or radio values fails float()
conversion, the loader ends in the uncaught-ValueError outcome at the first
failing assignment (no InvalidRange diagnostic is reached); conversely the
InvalidRange diagnostic outcome can only arise when all three values parse
as floats. -/
theorem c10_loader_float_conversion :
    (∀ volcanV lonV latV radioV startV endV gmailV : String,
        pyFloat lonV = none ∨ pyFloat latV = none ∨ pyFloat radioV = none →
        ∃ k, assignAndValidate volcanV lonV latV radioV startV endV gmailV =
          .valueError k) ∧
      (∀ volcanV lonV latV radioV startV endV gmailV m : String,
        assignAndValidate volcanV lonV latV radioV startV endV gmailV =
          .rangeExit m →
        (pyFloat lonV).isSome = true ∧ (pyFloat latV).isSome = true ∧
          (pyFloat radioV).isSome = true) := by
  constructor
  · intro v l la r s e g h
    rcases hl : pyFloat l with _ | lon
    · exact ⟨"lon", by unfold assignAndValidate; rw [hl]⟩
    rcases hla : pyFloat la with _ | lat
    · exact ⟨"lat", by unfold assignAndValidate; rw [hl, hla]⟩
    rcases hr : pyFloat r with _ | rad
    · exact ⟨"radio", by unfold assignAndValidate; rw [hl, hla, hr]⟩
    · rcases h with h | h | h
      · rw [hl] at h; cases h
      · rw [hla] at h; cases h
      · rw [hr] at h; cases h
  · intro v l la r s e g m h
    unfold assignAndValidate at h
    rcases hl : pyFloat l with _ | lon
    · rw [hl] at h
      exact LoaderOutcome.noConfusion h
    rw [hl] at h
    rcases hla : pyFloat la with _ | lat
    · rw [hla] at h
      exact LoaderOutcome.noConfusion h
    rw [hla] at h
    rcases hr : pyFloat r with _ | rad
    · rw [hr] at h
      exact LoaderOutcome.noConfusion h
    · exact ⟨rfl, rfl, rfl⟩

/-- Configuration values for the C10 witness: a site whose lon value is not
float-parseable while lat and radio are. -/
def c10BadLon : String := "abc"

/-- Parseable latitude value for the C10 witness. -/
def c10LatVal : String := "37.75"

/-- Parseable radius value for the C10 witness. -/
def c10RadioVal : String := "15"

/-- Site name for the C10 witness. -/
def c10SiteName : String := "Etna"

/-- Start date for the C10 witness. -/
def c10StartVal : String := "2024-01-01"

/-- End date for the C10 witness. -/
def c10EndVal : String := "2024-02-01"

/-- Account name for the C10 witness. -/
def c10GmailVal : String := "someuser"

/-- Witness for C10: with lon = abc the parse fails and the loader ends in
the uncaught ValueError outcome. -/
theorem c10_loader_float_conversion_witness :
    (pyFloat c10BadLon = none ∨ pyFloat c10LatVal = none ∨
        pyFloat c10RadioVal = none) ∧
      ∃ k, assignAndValidate c10SiteName c10BadLon c10LatVal c10RadioVal
        c10StartVal c10EndVal c10GmailVal = .valueError k := by
  have hnone : pyFloat c10BadLon = none := by decide
  exact ⟨Or.inl hnone,
    c10_loader_float_conversion.1 c10SiteName c10BadLon c10LatVal c10RadioVal
      c10StartVal c10EndVal c10GmailVal (Or.inl hnone)⟩
